import Mathlib

/-!
Verification of the RabbitMQ tutorial notebook (`0-Pre-requisites/3-RabbitMQ.ipynb`).

The notebook defines three Python functions over the `pika` client library:

- `get_connection()`: opens a blocking connection to the broker on localhost;
- `send_message(message)`: opens a connection, opens a channel, declares the
  queue `hello`, publishes `message` to it on the default exchange with no
  delivery confirmation, and closes the connection;
- `receive_message()`: opens a connection, opens a channel, declares the queue
  `hello`, registers a callback with `auto_ack=True`, and blocks forever in
  `start_consuming()`; it never closes its connection.

The broker itself (queue storage, FIFO delivery, acknowledgment handling) is
the external RabbitMQ server, not code of this repository; its behavior is
modelled from the specification's description (idempotent declaration, FIFO
backlog per queue, automatic acknowledgment at delivery).
-/

namespace IncubatorRabbitMQ

/-- A message payload: an opaque sequence of byte values. The empty payload and
payloads containing embedded null or control bytes are all representable. -/
abbrev Message := List Nat

/-- Modelled from the spec: the broker's state is its named queues, each with a
backlog of undelivered messages in FIFO order (head is the oldest). -/
abbrev Broker := List (String × List Message)

/-- Backlog of queue `q` in broker `b`; `none` when the queue does not exist. -/
def lookupQueue (b : Broker) (q : String) : Option (List Message) :=
  match b with
  | [] => none
  | (n, ms) :: rest => if n = q then some ms else lookupQueue rest q

/-- Modelled from the spec: `queue_declare` ensures the queue exists before it
is used; if the queue does not exist it is created empty, and declaring an
already-existing destination with matching properties is a no-op. -/
def queue_declare (b : Broker) (q : String) : Broker :=
  match lookupQueue b q with
  | some _ => b
  | none => b ++ [(q, [])]

/-- Modelled from the spec: `basic_publish` on the default exchange hands the
payload to the broker, which appends it to the backlog of the queue named by
the routing key; a payload routed to an absent queue is dropped by the broker. -/
def basic_publish (b : Broker) (q : String) (m : Message) : Broker :=
  match b with
  | [] => []
  | (n, ms) :: rest =>
      if n = q then (n, ms ++ [m]) :: rest else (n, ms) :: basic_publish rest q m

/-- Replace the backlog of queue `q` (used by the broker when it removes a
delivered message on automatic acknowledgment). -/
def setBacklog (b : Broker) (q : String) (ms : List Message) : Broker :=
  match b with
  | [] => []
  | (n, ms0) :: rest =>
      if n = q then (n, ms) :: rest else (n, ms0) :: setBacklog rest q ms

/-- The connection- and broker-facing operations the tutorial code performs. -/
inductive Op where
  | openConnection
  | openChannel
  | queueDeclare (q : String)
  | basicPublish (exchange routingKey : String) (body : Message)
      (confirmRequested : Bool)
  | basicConsume (q : String) (autoAck : Bool)
  | startConsuming
  | deliver (q : String) (body : Message)
  | ack
  | closeConnection
deriving DecidableEq

/-- The sequence of operations executed by `send_message(message)` in the
source: `get_connection()`, `connection.channel()`,
`channel.queue_declare(queue='hello')`,
`channel.basic_publish(exchange='', routing_key='hello', body=message)` (which
requests no delivery confirmation), and finally `connection.close()`. -/
def send_message_trace (m : Message) : List Op :=
  [Op.openConnection, Op.openChannel, Op.queueDeclare "hello",
   Op.basicPublish "" "hello" m false, Op.closeConnection]

/-- The sequence of setup operations executed by `receive_message()` in the
source before it blocks: `get_connection()`, `connection.channel()`,
`channel.queue_declare(queue='hello')`,
`channel.basic_consume(queue='hello', on_message_callback=callback,
auto_ack=True)`, and `channel.start_consuming()`. No `connection.close()`
appears anywhere in the function. -/
def receive_message_trace : List Op :=
  [Op.openConnection, Op.openChannel, Op.queueDeclare "hello",
   Op.basicConsume "hello" true, Op.startConsuming]

/-- Effect of one successful `send_message(m)` call on the broker state:
declare `hello`, then publish `m` to it, per the source of `send_message`. -/
def send_message (b : Broker) (m : Message) : Broker :=
  basic_publish (queue_declare b "hello") "hello" m

/-- The four publish steps named by the spec (section 4.2). -/
inductive SpecStep where
  | openConn
  | declareDest
  | publishFireAndForget
  | publishConfirmed
  | closeConn
deriving DecidableEq

/-- Abstraction of concrete operations to the spec's publish steps: opening
the channel is part of establishing the broker session (spec 4.1), a publish
that requests no confirmation is fire-and-forget, and one that requests
confirmation is not. -/
def specStepOf : Op → Option SpecStep
  | Op.openConnection => some SpecStep.openConn
  | Op.openChannel => none
  | Op.queueDeclare _ => some SpecStep.declareDest
  | Op.basicPublish _ _ _ false => some SpecStep.publishFireAndForget
  | Op.basicPublish _ _ _ true => some SpecStep.publishConfirmed
  | Op.closeConnection => some SpecStep.closeConn
  | _ => none

/-- Failure kinds surfaced by the publisher (spec section 7): the broker is
unreachable at connection time, or the connection drops mid-operation. -/
inductive PubError where
  | connectionError
  | midOperationError
deriving DecidableEq

/-- Failure injection for one `send_message` run: whether the broker is
reachable at `get_connection()`, and whether the declare and publish calls
complete without the connection dropping. -/
structure Env where
  reachable : Bool
  declareOk : Bool
  publishOk : Bool
deriving DecidableEq

/-- Outcome of one `send_message` run: the error surfaced to the caller, if
any; the broker state afterwards; the operations actually executed; and
whether `connection.close()` ran. -/
structure RunResult where
  result : Option PubError
  broker : Broker
  executed : List Op
  closed : Bool
deriving DecidableEq

/-- Run of `send_message` with failure injection, following the source's
straight-line code: `get_connection()` raises when the broker is unreachable;
the declare and publish calls raise when the connection drops mid-operation;
no statement is wrapped in try/except, so a raised error propagates to the
caller at once, and `connection.close()` is the last statement, executed only
when every earlier statement succeeded. -/
def send_message_run (env : Env) (b : Broker) (m : Message) : RunResult :=
  if env.reachable = false then
    { result := some PubError.connectionError, broker := b,
      executed := [], closed := false }
  else if env.declareOk = false then
    { result := some PubError.midOperationError, broker := b,
      executed := [Op.openConnection, Op.openChannel], closed := false }
  else if env.publishOk = false then
    { result := some PubError.midOperationError, broker := queue_declare b "hello",
      executed := [Op.openConnection, Op.openChannel, Op.queueDeclare "hello"],
      closed := false }
  else
    { result := none, broker := send_message b m,
      executed := send_message_trace m, closed := true }

/-- Phase of the receive loop: the waiting/dispatching cycle of
`start_consuming`, plus the terminal phase reached only by external
interruption. -/
inductive ConsumerPhase where
  | waiting
  | dispatching (body : Message)
  | interrupted
deriving DecidableEq

/-- State of the consuming loop: its phase, the broker state, and the bodies
the callback has been invoked with so far (oldest first). -/
structure ConsumerState where
  phase : ConsumerPhase
  broker : Broker
  invoked : List Message
deriving DecidableEq

/-- One internal step of `start_consuming` with `auto_ack=True`, modelled from
the spec: when waiting and the backlog of `hello` is nonempty, the broker
delivers its head message and removes it immediately (automatic acknowledgment
at delivery), and the callback invocation begins; a dispatch returns to
waiting; with an empty backlog the loop keeps waiting. The loop itself never
produces the interrupted phase. -/
def consumerStep (s : ConsumerState) : ConsumerState :=
  match s.phase with
  | ConsumerPhase.waiting =>
      match lookupQueue s.broker "hello" with
      | some (m :: rest) =>
          { phase := ConsumerPhase.dispatching m,
            broker := setBacklog s.broker "hello" rest,
            invoked := s.invoked ++ [m] }
      | _ => s
  | ConsumerPhase.dispatching _ =>
      { phase := ConsumerPhase.waiting, broker := s.broker,
        invoked := s.invoked }
  | ConsumerPhase.interrupted => s

/-- External interruption of the consuming loop (spec 4.3 step 4): the only
transition that reaches the terminal phase. -/
def interrupt (s : ConsumerState) : ConsumerState :=
  { phase := ConsumerPhase.interrupted, broker := s.broker,
    invoked := s.invoked }

/-- Consumer state right after `receive_message()`'s setup: the queue `hello`
declared, the callback registered with `auto_ack=True`, the loop entered in
the waiting phase with no invocation yet. -/
def startConsumer (b : Broker) : ConsumerState :=
  { phase := ConsumerPhase.waiting, broker := queue_declare b "hello",
    invoked := [] }

/-- Run `n` internal steps of the consuming loop. -/
def runConsumer : Nat → ConsumerState → ConsumerState
  | 0, s => s
  | Nat.succ n, s => runConsumer n (consumerStep s)

/-- Operations emitted toward the broker by one loop step: a delivery is
immediately followed by its automatic acknowledgment; no step emits a
connection close. -/
def consumerStepOps (s : ConsumerState) : List Op :=
  match s.phase with
  | ConsumerPhase.waiting =>
      match lookupQueue s.broker "hello" with
      | some (m :: _) => [Op.deliver "hello" m, Op.ack]
      | _ => []
  | _ => []

/-- Operations emitted toward the broker by `n` loop steps. -/
def consumerRunOps : Nat → ConsumerState → List Op
  | 0, _ => []
  | Nat.succ n, s => consumerStepOps s ++ consumerRunOps n (consumerStep s)

/-- Outcome of a single delivery under `auto_ack=True`: the broker state
afterwards, whether an acknowledgment was sent, and which messages had their
callback complete. -/
structure DeliveryResult where
  broker : Broker
  acked : Bool
  processed : List Message
deriving DecidableEq

/-- A single delivery under `auto_ack=True` with an explicit callback outcome,
modelled from the spec: the acknowledgment is automatic at delivery, so the
broker removes the message before the callback outcome is known;
`cbOk = false` models a crash inside the callback, in which case the message
is in no backlog and was never processed. -/
def deliverOneAutoAck (b : Broker) (cbOk : Bool) : DeliveryResult :=
  match lookupQueue b "hello" with
  | some (m :: rest) =>
      { broker := setBacklog b "hello" rest,
        acked := true,
        processed := if cbOk then [m] else [] }
  | _ => { broker := b, acked := false, processed := [] }

/-- Message `m` is in the backlog of queue `q` of broker `b`. -/
def inBacklog (b : Broker) (q : String) (m : Message) : Prop :=
  ∃ ms, lookupQueue b q = some ms ∧ m ∈ ms

theorem lookupQueue_append_of_some {b : Broker} {q : String} {ms : List Message}
    (extra : Broker) (h : lookupQueue b q = some ms) :
    lookupQueue (b ++ extra) q = some ms := by
  induction b with
  | nil => simp [lookupQueue] at h
  | cons p rest ih =>
    obtain ⟨n, ms0⟩ := p
    by_cases hq : n = q
    · simp [lookupQueue, hq] at h ⊢
      exact h
    · simp [lookupQueue, hq] at h ⊢
      exact ih h

theorem lookupQueue_append_self {b : Broker} {q : String} (ms : List Message)
    (h : lookupQueue b q = none) : lookupQueue (b ++ [(q, ms)]) q = some ms := by
  induction b with
  | nil => simp [lookupQueue]
  | cons p rest ih =>
    obtain ⟨n, ms0⟩ := p
    by_cases hq : n = q
    · simp [lookupQueue, hq] at h
    · simp [lookupQueue, hq] at h ⊢
      exact ih h

theorem queue_declare_of_some {b : Broker} {q : String} {ms : List Message}
    (h : lookupQueue b q = some ms) : queue_declare b q = b := by
  simp [queue_declare, h]

theorem lookupQueue_queue_declare_of_some {b : Broker} {d : String}
    {ms : List Message} (q : String) (h : lookupQueue b d = some ms) :
    lookupQueue (queue_declare b q) d = some ms := by
  cases hq : lookupQueue b q with
  | some ms1 => simp [queue_declare, hq, h]
  | none =>
    simp only [queue_declare, hq]
    exact lookupQueue_append_of_some _ h

theorem lookupQueue_basic_publish_self {b : Broker} {q : String}
    {ms : List Message} (m : Message) (h : lookupQueue b q = some ms) :
    lookupQueue (basic_publish b q m) q = some (ms ++ [m]) := by
  induction b with
  | nil => simp [lookupQueue] at h
  | cons p rest ih =>
    obtain ⟨n, ms0⟩ := p
    by_cases hq : n = q
    · subst hq
      simp [lookupQueue] at h
      simp [basic_publish, lookupQueue, h]
    · simp [lookupQueue, basic_publish, hq] at h ⊢
      exact ih h

theorem lookupQueue_basic_publish_other {b : Broker} {q d : String}
    (m : Message) (hne : d ≠ q) :
    lookupQueue (basic_publish b q m) d = lookupQueue b d := by
  induction b with
  | nil => simp [basic_publish]
  | cons p rest ih =>
    obtain ⟨n, ms0⟩ := p
    by_cases hq : n = q
    · have hqd : ¬(q = d) := fun hh => hne hh.symm
      simp [basic_publish, lookupQueue, hq, hqd]
    · by_cases hd : n = d
      · simp [basic_publish, lookupQueue, hq, hd, hne]
      · simp [basic_publish, lookupQueue, hq, hd]
        exact ih

theorem lookupQueue_setBacklog_self {b : Broker} {q : String}
    {ms0 : List Message} (ms : List Message) (h : lookupQueue b q = some ms0) :
    lookupQueue (setBacklog b q ms) q = some ms := by
  induction b with
  | nil => simp [lookupQueue] at h
  | cons p rest ih =>
    obtain ⟨n, ms1⟩ := p
    by_cases hq : n = q
    · simp [setBacklog, lookupQueue, hq]
    · simp [setBacklog, lookupQueue, hq] at h ⊢
      exact ih h

theorem runConsumer_succ (n : Nat) (s : ConsumerState) :
    runConsumer (n + 1) s = runConsumer n (consumerStep s) := rfl

theorem runConsumer_fix {s : ConsumerState} (h : consumerStep s = s) :
    ∀ n, runConsumer n s = s := by
  intro n
  induction n with
  | zero => rfl
  | succ n ih => simp [runConsumer, h, ih]

theorem consumerStep_empty {b : Broker} {inv : List Message}
    (h : lookupQueue b "hello" = some [] ∨ lookupQueue b "hello" = none) :
    consumerStep { phase := ConsumerPhase.waiting, broker := b, invoked := inv }
      = { phase := ConsumerPhase.waiting, broker := b, invoked := inv } := by
  rcases h with h | h <;> simp [consumerStep, h]

theorem consumer_drain :
    ∀ (ms : List Message) (b : Broker) (inv : List Message),
    lookupQueue b "hello" = some ms → ∀ n, 2 * ms.length ≤ n →
    (runConsumer n
        { phase := ConsumerPhase.waiting, broker := b, invoked := inv }).invoked
      = inv ++ ms := by
  intro ms
  induction ms with
  | nil =>
    intro b inv h n _
    rw [runConsumer_fix (consumerStep_empty (Or.inl h))]
    simp
  | cons m rest ih =>
    intro b inv h n hn
    obtain ⟨k, rfl⟩ : ∃ k, n = k + 2 :=
      ⟨n - 2, by simp only [List.length_cons] at hn; omega⟩
    have hstep1 :
        consumerStep { phase := ConsumerPhase.waiting, broker := b, invoked := inv }
          = { phase := ConsumerPhase.dispatching m,
              broker := setBacklog b "hello" rest, invoked := inv ++ [m] } := by
      simp [consumerStep, h]
    have hstep2 :
        consumerStep ({ phase := ConsumerPhase.dispatching m,
                        broker := setBacklog b "hello" rest,
                        invoked := inv ++ [m] })
          = { phase := ConsumerPhase.waiting,
              broker := setBacklog b "hello" rest, invoked := inv ++ [m] } := by
      simp [consumerStep]
    rw [runConsumer_succ, hstep1, runConsumer_succ, hstep2]
    have hlk : lookupQueue (setBacklog b "hello" rest) "hello" = some rest :=
      lookupQueue_setBacklog_self rest h
    rw [ih (setBacklog b "hello" rest) (inv ++ [m]) hlk k
      (by simp only [List.length_cons] at hn; omega)]
    simp

theorem hello_after_send {b : Broker} (P : Message)
    (h : lookupQueue b "hello" = some [] ∨ lookupQueue b "hello" = none) :
    lookupQueue (send_message b P) "hello" = some [P] := by
  unfold send_message
  rcases h with h | h
  · rw [queue_declare_of_some h]
    simpa using lookupQueue_basic_publish_self P h
  · have hd : lookupQueue (queue_declare b "hello") "hello" = some [] := by
      simp only [queue_declare, h]
      exact lookupQueue_append_self [] h
    simpa using lookupQueue_basic_publish_self P hd

theorem hello_after_send_of_some {b : Broker} {ms : List Message} (m : Message)
    (h : lookupQueue b "hello" = some ms) :
    lookupQueue (send_message b m) "hello" = some (ms ++ [m]) := by
  unfold send_message
  rw [queue_declare_of_some h]
  exact lookupQueue_basic_publish_self m h

theorem consumerStep_live (s : ConsumerState)
    (h : s.phase ≠ ConsumerPhase.interrupted) :
    (consumerStep s).phase = ConsumerPhase.waiting ∨
      ∃ m, (consumerStep s).phase = ConsumerPhase.dispatching m := by
  cases hp : s.phase with
  | waiting =>
    cases hl : lookupQueue s.broker "hello" with
    | none =>
      left
      simp [consumerStep, hp, hl]
    | some ms =>
      cases ms with
      | nil =>
        left
        simp [consumerStep, hp, hl]
      | cons m rest =>
        right
        exact ⟨m, by simp [consumerStep, hp, hl]⟩
  | dispatching m =>
    left
    simp [consumerStep, hp]
  | interrupted => exact absurd hp h

/-- C2: For every payload, `send_message` performs exactly these steps in this
order: open a connection to the broker (connection plus channel), declare the
destination `hello` idempotently, hand the payload to the broker with no
delivery confirmation requested (fire-and-forget), and then close the
connection. -/
theorem send_message_publish_step_order (m : Message) :
    send_message_trace m =
      [Op.openConnection, Op.openChannel, Op.queueDeclare "hello",
       Op.basicPublish "" "hello" m false, Op.closeConnection] ∧
    (send_message_trace m).filterMap specStepOf =
      [SpecStep.openConn, SpecStep.declareDest,
       SpecStep.publishFireAndForget, SpecStep.closeConn] :=
  ⟨rfl, rfl⟩

/-- C3: Declaring an already-existing destination is a no-op: whenever the
queue already exists, `queue_declare` returns the broker state unchanged, so a
second declaration raises no error, creates no duplicate destination, and
leaves the broker state unchanged. -/
theorem queue_declare_idempotent (b : Broker) (q : String) (ms : List Message)
    (h : lookupQueue b q = some ms) :
    queue_declare b q = b ∧
    queue_declare (queue_declare b q) q = queue_declare b q := by
  have h1 : queue_declare b q = b := queue_declare_of_some h
  exact ⟨h1, by rw [h1, h1]⟩

/-- Witness for C3 at a concrete broker state. -/
theorem queue_declare_idempotent_witness :
    queue_declare [("hello", [])] "hello" = [("hello", [])] ∧
    queue_declare (queue_declare [("hello", [])] "hello") "hello"
      = queue_declare [("hello", [])] "hello" :=
  queue_declare_idempotent [("hello", [])] "hello" [] (by decide)

/-- C4: If the broker is unreachable, `send_message` fails with a connection
error before any broker operation executes: no destination is created or
modified, no message becomes visible in any backlog (the broker state is
returned unchanged), and the connection is never closed because none was
opened. -/
theorem publish_unreachable_atomic (env : Env) (b : Broker) (m : Message)
    (h : env.reachable = false) :
    send_message_run env b m =
      { result := some PubError.connectionError, broker := b,
        executed := [], closed := false } := by
  simp [send_message_run, h]

/-- Witness for C4 at a concrete environment, broker state and payload. -/
theorem publish_unreachable_atomic_witness :
    send_message_run { reachable := false, declareOk := true, publishOk := true }
        [("other", [[1]])] [2] =
      { result := some PubError.connectionError, broker := [("other", [[1]])],
        executed := [], closed := false } :=
  publish_unreachable_atomic
    { reachable := false, declareOk := true, publishOk := true }
    [("other", [[1]])] [2] rfl

/-- C5: With `auto_ack=True`, every delivery is immediately followed by an
automatic acknowledgment, regardless of whether the callback completes: after
the delivery the head message is removed from the backlog (so it is never
redelivered), the acknowledgment is recorded even when the callback crashes,
and a crashed callback leaves the message unprocessed — it is lost
(at-most-once delivery). The loop's operation stream for such a step is
exactly a delivery immediately followed by an acknowledgment. -/
theorem auto_ack_at_delivery (b : Broker) (m : Message) (rest : List Message)
    (cbOk : Bool) (h : lookupQueue b "hello" = some (m :: rest)) :
    (deliverOneAutoAck b cbOk).acked = true ∧
    lookupQueue (deliverOneAutoAck b cbOk).broker "hello" = some rest ∧
    (cbOk = false → (deliverOneAutoAck b cbOk).processed = []) ∧
    (∀ inv, consumerStepOps
        { phase := ConsumerPhase.waiting, broker := b, invoked := inv }
      = [Op.deliver "hello" m, Op.ack]) := by
  refine ⟨?_, ?_, ?_, ?_⟩
  · simp [deliverOneAutoAck, h]
  · simp only [deliverOneAutoAck, h]
    exact lookupQueue_setBacklog_self rest h
  · intro hc
    simp [deliverOneAutoAck, h, hc]
  · intro inv
    simp [consumerStepOps, h]

/-- Witness for C5 at a concrete broker state, with a crashing callback. -/
theorem auto_ack_at_delivery_witness :
    (deliverOneAutoAck [("hello", [[5]])] false).acked = true ∧
    lookupQueue (deliverOneAutoAck [("hello", [[5]])] false).broker "hello"
      = some [] ∧
    (deliverOneAutoAck [("hello", [[5]])] false).processed = [] := by
  have h := auto_ack_at_delivery [("hello", [[5]])] [5] [] false (by decide)
  exact ⟨h.1, h.2.1, h.2.2.1 rfl⟩

/-- C1: For every payload P (including the empty payload and payloads with
embedded null/control bytes), `send_message(P)` on destination `hello`
followed by `receive_message` results in the callback being invoked exactly
once with a body equal to P: once the consuming loop has taken at least the
two steps of the single dispatch, its invocation list is exactly `[P]`, and it
stays `[P]` forever after. -/
theorem send_then_receive_exactly_once (b : Broker) (P : Message)
    (h : lookupQueue b "hello" = some [] ∨ lookupQueue b "hello" = none) :
    ∀ n, 2 ≤ n →
      (runConsumer n (startConsumer (send_message b P))).invoked = [P] := by
  intro n hn
  have hb : lookupQueue (send_message b P) "hello" = some [P] :=
    hello_after_send P h
  have hq : queue_declare (send_message b P) "hello" = send_message b P :=
    queue_declare_of_some hb
  unfold startConsumer
  rw [hq]
  have hd := consumer_drain [P] (send_message b P) [] hb n (by simpa using hn)
  simpa using hd

/-- Witness for C1: the concrete scenario of the tutorial, with the payload
being the byte encoding of the string published by the notebook. -/
theorem send_then_receive_exactly_once_witness :
    (runConsumer 2 (startConsumer (send_message []
        [72, 101, 108, 108, 111, 32, 102, 114, 111, 109, 32, 82, 97, 98, 98,
         105, 116, 77, 81, 33]))).invoked =
      [[72, 101, 108, 108, 111, 32, 102, 114, 111, 109, 32, 82, 97, 98, 98,
        105, 116, 77, 81, 33]] :=
  send_then_receive_exactly_once []
    [72, 101, 108, 108, 111, 32, 102, 114, 111, 109, 32, 82, 97, 98, 98,
     105, 116, 77, 81, 33] (Or.inr rfl) 2 (by decide)

/-- C6: Once started, the consuming loop of `receive_message` only cycles
between the waiting and dispatching phases: from any live state, one step
lands in waiting or dispatching, no number of internal steps ever reaches the
terminal phase, and the terminal phase is produced only by the external
`interrupt` transition — the loop never returns on its own. -/
theorem consume_never_terminates (s : ConsumerState)
    (h : s.phase ≠ ConsumerPhase.interrupted) :
    ((consumerStep s).phase = ConsumerPhase.waiting ∨
      ∃ m, (consumerStep s).phase = ConsumerPhase.dispatching m) ∧
    (∀ n, (runConsumer n s).phase ≠ ConsumerPhase.interrupted) ∧
    (interrupt s).phase = ConsumerPhase.interrupted := by
  refine ⟨consumerStep_live s h, ?_, rfl⟩
  intro n
  induction n generalizing s with
  | zero => exact h
  | succ n ih =>
    rw [runConsumer_succ]
    refine ih (consumerStep s) ?_
    rcases consumerStep_live s h with h1 | ⟨m, h1⟩ <;> simp [h1]

/-- Witness for C6 at a concrete consumer state. -/
theorem consume_never_terminates_witness :
    (interrupt { phase := ConsumerPhase.waiting,
                 broker := [("hello", [[3]])],
                 invoked := [] }).phase = ConsumerPhase.interrupted :=
  (consume_never_terminates
    { phase := ConsumerPhase.waiting, broker := [("hello", [[3]])],
      invoked := [] } (by simp)).2.2

/-- C7: Three distinct messages published in sequence to `hello` before any
consumer starts are all received by a consumer that subsequently starts on
`hello`, in the order in which they were published (FIFO per queue for a
single publisher). -/
theorem fifo_three_messages (b : Broker) (m1 m2 m3 : Message)
    (h : lookupQueue b "hello" = some [] ∨ lookupQueue b "hello" = none)
    (h12 : m1 ≠ m2) (h23 : m2 ≠ m3) (h13 : m1 ≠ m3) :
    ∀ n, 6 ≤ n →
      (runConsumer n (startConsumer
          (send_message (send_message (send_message b m1) m2) m3))).invoked
        = [m1, m2, m3] := by
  intro n hn
  have hb1 : lookupQueue (send_message b m1) "hello" = some [m1] :=
    hello_after_send m1 h
  have hb2 : lookupQueue (send_message (send_message b m1) m2) "hello"
      = some [m1, m2] := by
    simpa using hello_after_send_of_some m2 hb1
  have hb3 : lookupQueue
      (send_message (send_message (send_message b m1) m2) m3) "hello"
        = some [m1, m2, m3] := by
    simpa using hello_after_send_of_some m3 hb2
  have hq := queue_declare_of_some hb3
  unfold startConsumer
  rw [hq]
  have hd := consumer_drain [m1, m2, m3]
    (send_message (send_message (send_message b m1) m2) m3) [] hb3 n
    (by simpa using hn)
  simpa using hd

/-- Witness for C7 at three concrete distinct messages. -/
theorem fifo_three_messages_witness :
    (runConsumer 6 (startConsumer
        (send_message (send_message (send_message [] [1]) [2]) [3]))).invoked
      = [[1], [2], [3]] :=
  fifo_three_messages [] [1] [2] [3] (Or.inr rfl)
    (by decide) (by decide) (by decide) 6 (by decide)

/-- C8: A message in the backlog of destination D survives every operation
other than consumption: a later queue declaration (in particular the
subscriber's) keeps it in the backlog, a later publish keeps it in the
backlog, and once a subscriber declares and consumes from `hello` the message
is delivered (it appears among the callback invocations). -/
theorem backlog_persists_until_consumed (b : Broker) (q d : String)
    (m m' : Message) (hm : inBacklog b d m) :
    inBacklog (queue_declare b q) d m ∧
    inBacklog (basic_publish b q m') d m ∧
    (d = "hello" → ∃ n, m ∈ (runConsumer n (startConsumer b)).invoked) := by
  obtain ⟨ms, hlk, hmem⟩ := hm
  refine ⟨⟨ms, lookupQueue_queue_declare_of_some q hlk, hmem⟩, ?_, ?_⟩
  · by_cases hdq : d = q
    · subst hdq
      exact ⟨ms ++ [m'], lookupQueue_basic_publish_self m' hlk, by simp [hmem]⟩
    · refine ⟨ms, ?_, hmem⟩
      rw [lookupQueue_basic_publish_other m' hdq]
      exact hlk
  · intro hd
    subst hd
    refine ⟨2 * ms.length, ?_⟩
    unfold startConsumer
    rw [queue_declare_of_some hlk]
    rw [consumer_drain ms b [] hlk (2 * ms.length) le_rfl]
    simpa using hmem

/-- Witness for C8 at a concrete broker state holding one backlogged message. -/
theorem backlog_persists_until_consumed_witness :
    inBacklog (queue_declare [("hello", [[7]])] "x") "hello" [7] ∧
    inBacklog (basic_publish [("hello", [[7]])] "x" [8]) "hello" [7] ∧
    ("hello" = "hello" →
      ∃ n, [7] ∈ (runConsumer n (startConsumer [("hello", [[7]])])).invoked) :=
  backlog_persists_until_consumed [("hello", [[7]])] "x" "hello" [7] [8]
    ⟨[[7]], by decide, by decide⟩

/-- C9: The consumer never releases its connection: no `connection.close()`
appears in `receive_message`'s setup operations nor in any number of steps of
its consuming loop — unlike `send_message`, whose operation sequence does
close its connection. -/
theorem consumer_never_closes_connection :
    Op.closeConnection ∉ receive_message_trace ∧
    (∀ n s, Op.closeConnection ∉ consumerRunOps n s) ∧
    (∀ m : Message, Op.closeConnection ∈ send_message_trace m) := by
  refine ⟨by decide, ?_, by intro m; simp [send_message_trace]⟩
  intro n
  induction n with
  | zero =>
    intro s
    simp [consumerRunOps]
  | succ n ih =>
    intro s
    simp only [consumerRunOps, List.mem_append]
    rintro (hc | hc)
    · revert hc
      unfold consumerStepOps
      cases hp : s.phase <;> simp
      cases hl : lookupQueue s.broker "hello" with
      | none => simp
      | some ms => cases ms <;> simp
    · exact ih (consumerStep s) hc

/-- Witness for C9 at a concrete consumer run and payload. -/
theorem consumer_never_closes_connection_witness :
    Op.closeConnection ∉ consumerRunOps 3 (startConsumer []) ∧
    Op.closeConnection ∈ send_message_trace [1] :=
  ⟨consumer_never_closes_connection.2.1 3 (startConsumer []),
   consumer_never_closes_connection.2.2 [1]⟩

/-- C10: `send_message` closes its connection only on the fully successful
path: when the declare or the publish step raises, the error propagates to the
caller unhandled, `connection.close()` is not among the executed operations,
and the connection is not marked closed; when every step succeeds the
connection is closed. -/
theorem close_only_on_success (env : Env) (b : Broker) (m : Message)
    (hre : env.reachable = true) :
    (env.declareOk = false →
      (send_message_run env b m).result = some PubError.midOperationError ∧
      (send_message_run env b m).closed = false ∧
      Op.closeConnection ∉ (send_message_run env b m).executed) ∧
    (env.publishOk = false →
      (send_message_run env b m).result = some PubError.midOperationError ∧
      (send_message_run env b m).closed = false ∧
      Op.closeConnection ∉ (send_message_run env b m).executed) ∧
    (env.declareOk = true → env.publishOk = true →
      (send_message_run env b m).closed = true) := by
  refine ⟨?_, ?_, ?_⟩
  · intro hd
    refine ⟨?_, ?_, ?_⟩ <;> simp [send_message_run, hre, hd]
  · intro hp
    by_cases hd : env.declareOk = false
    · refine ⟨?_, ?_, ?_⟩ <;> simp [send_message_run, hre, hd]
    · have hd' : env.declareOk = true := by
        revert hd
        cases env.declareOk <;> simp
      refine ⟨?_, ?_, ?_⟩ <;> simp [send_message_run, hre, hd', hp]
  · intro hd hp
    simp [send_message_run, hre, hd, hp]

/-- Witness for C10: a run whose publish step raises does not close the
connection and surfaces the error. -/
theorem close_only_on_success_witness :
    (send_message_run { reachable := true, declareOk := true, publishOk := false }
        [] [9]).result = some PubError.midOperationError ∧
    (send_message_run { reachable := true, declareOk := true, publishOk := false }
        [] [9]).closed = false :=
  ⟨((close_only_on_success
      { reachable := true, declareOk := true, publishOk := false }
      [] [9] rfl).2.1 rfl).1,
   ((close_only_on_success
      { reachable := true, declareOk := true, publishOk := false }
      [] [9] rfl).2.1 rfl).2.1⟩

end IncubatorRabbitMQ
